import Mathlib

/-!
Verification of the DataAcademy teacher dashboard against its specification.

The development shallowly embeds the two Python source files:
  * `scripts/generate_data.py` — the synthetic data generator;
  * `app/dashboard.py` — the Streamlit dashboard (report queries and the
    add-student record writer).

Modelling conventions:
  * Calendar dates are integers: the proleptic Gregorian ordinal, exactly
    `datetime.date.toordinal()` in Python, so `date + timedelta(days = k)`
    is integer addition and date comparison is integer comparison.
  * Python float literals used as probability weights (0.75, 0.05, ...) are
    modelled as the rational numbers they denote in the source text.
  * Randomness is made explicit: every call of `random.randint`,
    `random.random` (inside `random.choices`), `random.choice`,
    `random.sample` or a Faker generator consumes a draw supplied by an
    oracle argument.  `random.randint(0, delta)` is modelled as a
    caller-supplied integer draw `k` together with the hypothesis
    `0 ≤ k ∧ k ≤ delta` (the contract of `randint`); `random.random()` is a
    rational draw `r` with contract `0 ≤ r ∧ r < 1`.
  * Enumerated values (course level, enrollment status, grades) are the
    strings the source uses.
-/

/-! ## Data model (the four-table schema) -/

structure Teacher where
  id : Int
  first_name : String
  last_name : String
  email : String
  bio : String
deriving DecidableEq

structure Student where
  id : Int
  first_name : String
  last_name : String
  email : String
  registration_date : Int
deriving DecidableEq

structure Course where
  id : Int
  title : String
  description : String
  level : String
  credits : Int
  start_date : Int
  end_date : Int
  teacher_id : Int
deriving DecidableEq

structure Enrollment where
  id : Int
  student_id : Int
  course_id : Int
  enrollment_date : Int
  status : String
  final_grade : String
deriving DecidableEq

/-! ## Data generator (`scripts/generate_data.py`) -/

/-- Fixed reference date of `choose_status_and_grade`:
`date(2025, 1, 15).toordinal()`. -/
def refDate : Int := 739266

/-- Running (cumulative) sums starting from `acc`, as `itertools.accumulate`
used inside `random.choices`. -/
def accumFrom (acc : ℚ) : List ℚ → List ℚ
  | [] => []
  | w :: ws => (acc + w) :: accumFrom (acc + w) ws

/-- Cumulative weights, `list(itertools.accumulate(weights))`. -/
def accumulate (ws : List ℚ) : List ℚ := accumFrom 0 ws

/-- Model of `random.choices(population, weights=weights, k=1)[0]`.

CPython computes `cum_weights = list(accumulate(weights))`,
`total = cum_weights[-1]`, and returns
`population[bisect_right(cum_weights, random() * total, 0, len - 1)]`.
For a sorted cumulative list, `bisect_right` with upper bound `len - 1`
is the number of entries of `cum_weights[:-1]` that are `≤ x`.  The
`random()` draw `r` is the explicit argument. -/
def random_choices (population : List String) (weights : List ℚ) (r : ℚ) :
    String :=
  let cum := accumulate weights
  let total := cum.getLastD 0
  let idx := cum.dropLast.countP (fun c => decide (c ≤ r * total))
  population.getD idx ""

/-- Model of `random_date_between(start, end)`: the source returns
`start + timedelta(days=random.randint(0, (end - start).days))`; the
`randint` result is the explicit draw `k` (contract `0 ≤ k ≤ end - start`). -/
def random_date_between (start _stop : Int) (k : Int) : Int :=
  start + k

/-- Model of `choose_status_and_grade(course_start, course_end,
enrollment_date)` from `generate_data.py`.  `rs` is the `random()` draw
consumed by the status `random.choices` call and `rg` the draw consumed by
the grade call (the source passes `enrollment_date` but never uses it). -/
def choose_status_and_grade (course_start course_end _enrollment_date : Int)
    (rs rg : ℚ) : String × Option String :=
  let status :=
    if course_end < refDate then
      random_choices ["completed", "active", "dropped"]
        [75/100, 5/100, 20/100] rs
    else if course_start > refDate then
      random_choices ["active", "completed", "dropped"]
        [70/100, 0, 30/100] rs
    else
      random_choices ["active", "completed", "dropped"]
        [60/100, 20/100, 20/100] rs
  let grade :=
    if status = "completed" then
      some (random_choices ["A", "B", "C", "D", "E", "F"]
        [25/100, 30/100, 25/100, 10/100, 5/100, 5/100] rg)
    else none
  (status, grade)

/-- One iteration of the inner loop of `generate_enrollments`: builds the
enrollment row for `course` with id `eid` and student `sid`.  `k` is the
`randint` draw for the enrollment date, `rs`/`rg` the `random()` draws of
`choose_status_and_grade`.  The source writes `final_grade: grade or ""`. -/
def mk_enrollment (eid sid : Int) (course : Course) (k : Int) (rs rg : ℚ) :
    Enrollment :=
  let course_start := course.start_date
  let course_end := course.end_date
  let enroll_start := course_start - 30
  let enroll_end := min (course_start + 20) course_end
  let enrollment_date := random_date_between enroll_start enroll_end k
  let sg := choose_status_and_grade course_start course_end enrollment_date
    rs rg
  { id := eid, student_id := sid, course_id := course.id,
    enrollment_date := enrollment_date, status := sg.1,
    final_grade := sg.2.getD "" }

/-- The inner loop of `generate_enrollments` over the student's sampled
courses, threading the global `enrollment_id` counter.  Each list entry is
one chosen course together with the three random draws its iteration
consumes. -/
def enroll_student (sid : Int) (eid : Int) :
    List (Course × Int × ℚ × ℚ) → List Enrollment
  | [] => []
  | (c, k, rs, rg) :: rest =>
      mk_enrollment eid sid c k rs rg :: enroll_student sid (eid + 1) rest

/-- The outer loop of `generate_enrollments`: for each student, the oracle
list gives the courses drawn by `random.sample` together with the random
draws of the inner loop; `eid` is the running `enrollment_id` (the source
starts it at 1). -/
def generate_enrollments (eid : Int) :
    List (Student × List (Course × Int × ℚ × ℚ)) → List Enrollment
  | [] => []
  | (s, draws) :: rest =>
      enroll_student s.id eid draws ++
        generate_enrollments (eid + draws.length) rest

/-! ## Generator pipeline and CSV output

All randomness consumed by `main()` comes from the module-level RNGs,
seeded once (`random.seed(42)`, `Faker.seed(42)`).  A `GenOracle` packages
those seeded streams: one function per kind of draw, indexed by the
iteration that consumes it.  The reference date of the status heuristic is
the fixed `date(2025, 1, 15)`, so the oracle is the only varying input of
the whole batch. -/

structure GenOracle where
  tFirst : Nat → String
  tLast : Nat → String
  tBio : Nat → String
  sFirst : Nat → String
  sLast : Nat → String
  sRegK : Nat → Int
  cTeacherIdx : Nat → Nat
  cLevelIdx : Nat → Nat
  cTitleIdx : Nat → Nat
  cDesc : Nat → String
  cCreditsIdx : Nat → Nat
  cStartK : Nat → Int
  cDur : Nat → Int
  eDraws : Nat → List (Nat × Int × ℚ × ℚ)

def NUM_TEACHERS : Nat := 40
def NUM_STUDENTS : Nat := 1500
def NUM_COURSES : Nat := 120

/-- Placeholder records returned by `List.getD` for out-of-range indices;
`random.choice` / `random.sample` never produce such indices. -/
def defaultTeacher : Teacher :=
  { id := 0, first_name := "", last_name := "", email := "", bio := "" }

def defaultStudent : Student :=
  { id := 0, first_name := "", last_name := "", email := "",
    registration_date := 0 }

def defaultCourse : Course :=
  { id := 0, title := "", description := "", level := "", credits := 0,
    start_date := 0, end_date := 0, teacher_id := 0 }

/-- Model of `generate_teachers()`. -/
def generate_teachers (o : GenOracle) : List Teacher :=
  (List.range NUM_TEACHERS).map (fun j =>
    let i : Nat := j + 1
    let first_name := o.tFirst j
    let last_name := o.tLast j
    { id := (i : Int), first_name := first_name, last_name := last_name,
      email := first_name.toLower ++ "." ++ last_name.toLower ++
        toString i ++ "@example.edu",
      bio := o.tBio j })

/-- Model of `generate_students()`; the registration window is
`date(2021, 1, 1)` (ordinal 737791) to `date(2025, 1, 1)` (739252). -/
def generate_students (o : GenOracle) : List Student :=
  (List.range NUM_STUDENTS).map (fun j =>
    let i : Nat := j + 1
    let first_name := o.sFirst j
    let last_name := o.sLast j
    { id := (i : Int), first_name := first_name, last_name := last_name,
      email := first_name.toLower ++ "." ++ last_name.toLower ++
        toString i ++ "@student.example.com",
      registration_date := random_date_between 737791 739252 (o.sRegK j) })

def levels_pool : List String := ["Beginner", "Intermediate", "Advanced"]

def titles_samples : List String :=
  ["Python for Data Analysis", "Introduction to SQL",
   "Web Development with Flask", "Machine Learning Basics",
   "Data Visualization with Python", "Linux for Developers",
   "Docker & Containers", "Cloud Fundamentals",
   "Object-Oriented Programming", "Data Engineering Pipelines"]

/-- Model of `generate_courses(teachers)`; the start window is
`date(2023, 1, 1)` (ordinal 738521) to `date(2025, 12, 31)` (739616), the
duration draw is `random.randint(30, 90)`, and each `random.choice` is an
oracle index into the fixed pool. -/
def generate_courses (o : GenOracle) (teachers : List Teacher) :
    List Course :=
  (List.range NUM_COURSES).map (fun j =>
    let i : Nat := j + 1
    let teacher := teachers.getD (o.cTeacherIdx j % teachers.length)
      defaultTeacher
    let level := levels_pool.getD (o.cLevelIdx j % levels_pool.length) ""
    let base_title := titles_samples.getD
      (o.cTitleIdx j % titles_samples.length) ""
    let credits := [3, 4, 5].getD (o.cCreditsIdx j % 3) 0
    let start_date := random_date_between 738521 739616 (o.cStartK j)
    let duration_days := o.cDur j
    { id := (i : Int), title := base_title ++ " #" ++ toString i,
      description := o.cDesc j, level := level, credits := credits,
      start_date := start_date, end_date := start_date + duration_days,
      teacher_id := teacher.id })

/-- The per-student sampling plan of `generate_enrollments`, read off the
oracle: student `j` gets the courses selected by its `random.sample` draw
together with the date/status/grade draws of each inner iteration. -/
def planFrom (o : GenOracle) (courses : List Course) :
    Nat → List Student → List (Student × List (Course × Int × ℚ × ℚ))
  | _, [] => []
  | j, s :: rest =>
      (s, (o.eDraws j).map (fun d =>
        (courses.getD (d.1 % courses.length) defaultCourse, d.2))) ::
        planFrom o courses (j + 1) rest

/-- Model of `generate_enrollments(students, courses)` with all draws
supplied by the oracle (`enrollment_id` starts at 1). -/
def generate_enrollments_run (o : GenOracle) (students : List Student)
    (courses : List Course) : List Enrollment :=
  generate_enrollments 1 (planFrom o courses 0 students)

/-! ### CSV serialisation (`write_csv`, `csv.DictWriter` defaults) -/

/-- Proleptic-Gregorian civil date from a day count relative to
1970-01-01 (Howard Hinnant's `civil_from_days`). -/
def civilFromDays (z0 : Int) : Int × Int × Int :=
  let z := z0 + 719468
  let era := (if 0 ≤ z then z else z - 146096) / 146097
  let doe := z - era * 146097
  let yoe := (doe - doe / 1460 + doe / 36524 - doe / 146096) / 365
  let y := yoe + era * 400
  let doy := doe - (365 * yoe + yoe / 4 - yoe / 100)
  let mp := (5 * doy + 2) / 153
  let d := doy - (153 * mp + 2) / 5 + 1
  let m := mp + (if mp < 10 then 3 else -9)
  (if m ≤ 2 then y + 1 else y, m, d)

def pad2 (n : Int) : String :=
  if n < 10 then "0" ++ toString n else toString n

def pad4 (n : Int) : String :=
  if n < 10 then "000" ++ toString n
  else if n < 100 then "00" ++ toString n
  else if n < 1000 then "0" ++ toString n
  else toString n

/-- Python `date.fromordinal(n).isoformat()`. -/
def isoformat (n : Int) : String :=
  let ymd := civilFromDays (n - 719163)
  pad4 ymd.1 ++ "-" ++ pad2 ymd.2.1 ++ "-" ++ pad2 ymd.2.2

/-- Minimal quoting of `csv` writers: a field is quoted when it contains a
separator, quote or newline character, doubling inner quotes. -/
def csvField (s : String) : String :=
  if s.toList.any (fun c => c == ',' || c == '"' || c == '\n' || c == '\r')
  then "\"" ++ s.replace "\"" "\"\"" ++ "\""
  else s

/-- One CSV record with the default `\r\n` terminator. -/
def csvLine (fields : List String) : String :=
  String.intercalate "," (fields.map csvField) ++ "\r\n"

/-- Model of `write_csv(path, rows, fieldnames)`: the byte content written
to the file. -/
def write_csv (fieldnames : List String) (rows : List (List String)) :
    String :=
  csvLine fieldnames ++ String.join (rows.map csvLine)

def teachers_csv (ts : List Teacher) : String :=
  write_csv ["id", "first_name", "last_name", "email", "bio"]
    (ts.map (fun t =>
      [toString t.id, t.first_name, t.last_name, t.email, t.bio]))

def students_csv (ss : List Student) : String :=
  write_csv ["id", "first_name", "last_name", "email", "registration_date"]
    (ss.map (fun s =>
      [toString s.id, s.first_name, s.last_name, s.email,
       isoformat s.registration_date]))

def courses_csv (cs : List Course) : String :=
  write_csv ["id", "title", "description", "level", "credits",
    "start_date", "end_date", "teacher_id"]
    (cs.map (fun c =>
      [toString c.id, c.title, c.description, c.level, toString c.credits,
       isoformat c.start_date, isoformat c.end_date, toString c.teacher_id]))

def enrollments_csv (es : List Enrollment) : String :=
  write_csv ["id", "student_id", "course_id", "enrollment_date", "status",
    "final_grade"]
    (es.map (fun e =>
      [toString e.id, toString e.student_id, toString e.course_id,
       isoformat e.enrollment_date, e.status, e.final_grade]))

/-- Model of `main()`: the four CSV file contents produced by one run of
the generator with the given seeded draw streams. -/
def generator_output (o : GenOracle) :
    String × String × String × String :=
  let teachers := generate_teachers o
  let students := generate_students o
  let courses := generate_courses o teachers
  let enrollments := generate_enrollments_run o students courses
  (teachers_csv teachers, students_csv students, courses_csv courses,
   enrollments_csv enrollments)

/-! ## Dashboard (`app/dashboard.py`) -/

/-- Database state seen by the dashboard: the four tables of the schema. -/
structure DB where
  teachers : List Teacher
  students : List Student
  courses : List Course
  enrollments : List Enrollment
deriving DecidableEq

/-- Lower-casing of a character list; PostgreSQL `ILIKE` is case-insensitive
`LIKE`, modelled by lower-casing both pattern and subject. -/
def lowerL (l : List Char) : List Char := l.map Char.toLower

/-- SQL `LIKE` pattern matching over character lists: `%` matches any
(possibly empty) string, `_` any single character, a backslash escapes the
following character, and any other character matches itself. -/
def likeMatch : List Char → List Char → Bool
  | [], s => s.isEmpty
  | p :: ps, s =>
      if p = '%' then s.tails.any (fun s2 => likeMatch ps s2)
      else if p = '_' then !s.isEmpty && likeMatch ps s.tail
      else if p = '\\' then
        (match ps with
          | [] => false
          | p2 :: ps2 =>
              s.head?.any (fun c => p2 == c) && likeMatch ps2 s.tail)
      else s.head?.any (fun c => p == c) && likeMatch ps s.tail

/-- PostgreSQL `subject ILIKE pattern`. -/
def ilike (subject pattern : String) : Bool :=
  likeMatch (lowerL pattern.toList) (lowerL subject.toList)

/-- Ordering of `ORDER BY last_name, first_name` in the student search. -/
def studentOrd (a b : Student) : Prop :=
  a.last_name < b.last_name ∨
    (a.last_name = b.last_name ∧ a.first_name ≤ b.first_name)

instance : DecidableRel studentOrd := fun a b => by
  unfold studentOrd; infer_instance

/-- The row predicate of the student-search `WHERE` clause: first name,
last name, email, or `first_name || ' ' || last_name` matches
`ILIKE '%' || term || '%'`. -/
def studentMatch (term : String) (s : Student) : Bool :=
  let pat := "%" ++ term ++ "%"
  ilike s.first_name pat || ilike s.last_name pat || ilike s.email pat ||
    ilike (s.first_name ++ " " ++ s.last_name) pat

/-- Model of the `query_students` SQL of the student-search tab: rows of
`student` passing `studentMatch`, ordered by last then first name,
`LIMIT 50`. -/
def query_students (db : DB) (term : String) : List Student :=
  ((db.students.filter (studentMatch term)).insertionSort studentOrd).take 50

/-- Case-insensitive substring containment, the spec's description of the
student-search match. -/
def substrCI (hay needle : String) : Prop :=
  lowerL needle.toList <:+: lowerL hay.toList

instance (hay needle : String) : Decidable (substrCI hay needle) :=
  List.decidableInfix _ _

/-- A term is wildcard-free when it contains none of the `LIKE`
metacharacters `%`, `_` and `\`. -/
def noWild (l : List Char) : Prop :=
  ∀ c ∈ l, c ≠ '%' ∧ c ≠ '_' ∧ c ≠ '\\'

instance (l : List Char) : Decidable (noWild l) := by
  unfold noWild; infer_instance

/-- Filter list of the course-overview tab, built exactly like the
dynamically assembled `WHERE` clause of `dashboard.py`: a teacher predicate
when a teacher is selected (the UI resolves the chosen name to an id), a
level predicate when the selected level list is non-empty (`c.level =
ANY(:levels)`), and one inclusive bound on `c.start_date` for each present
end of the date range. -/
def buildFilters (teacher : Option Int) (levels : List String)
    (dstart dend : Option Int) : List (Course → Bool) :=
  (match teacher with
    | some tid => [fun c : Course => c.teacher_id == tid]
    | none => ([] : List (Course → Bool))) ++
  (if levels.isEmpty then ([] : List (Course → Bool))
    else [fun c : Course => levels.contains c.level]) ++
  (match dstart with
    | some d => [fun c : Course => decide (d ≤ c.start_date)]
    | none => ([] : List (Course → Bool))) ++
  (match dend with
    | some d => [fun c : Course => decide (c.start_date ≤ d)]
    | none => ([] : List (Course → Bool)))

/-- Conjunction of the assembled predicates (`" AND ".join(filters)`; an
empty list means no `WHERE` clause, i.e. every row passes). -/
def whereAll (fs : List (Course → Bool)) (c : Course) : Bool :=
  fs.all (fun f => f c)

/-- One output row of the course-overview query. -/
structure CourseStatsRow where
  id : Int
  title : String
  level : String
  start_date : Int
  end_date : Int
  teacher_name : String
  total_enrollments : Int
  active_count : Int
  completed_count : Int
  dropped_count : Int
deriving DecidableEq

/-- The aggregates of one course group.  The `LEFT JOIN enrollment` plus
`COUNT(e.id)` / `SUM(CASE WHEN e.status = ... THEN 1 ELSE 0 END)` reduce to
counting the enrollments of the course (the lone all-`NULL` row of a course
without enrollments contributes 0 to every aggregate). -/
def courseStatsRow (db : DB) (c : Course) (t : Teacher) : CourseStatsRow :=
  let mine := db.enrollments.filter (fun e => e.course_id == c.id)
  { id := c.id, title := c.title, level := c.level,
    start_date := c.start_date, end_date := c.end_date,
    teacher_name := t.first_name ++ " " ++ t.last_name,
    total_enrollments := mine.length,
    active_count := (mine.filter (fun e => e.status == "active")).length,
    completed_count :=
      (mine.filter (fun e => e.status == "completed")).length,
    dropped_count := (mine.filter (fun e => e.status == "dropped")).length }

/-- Ordering of `ORDER BY c.start_date`. -/
def startDateOrd (a b : CourseStatsRow) : Prop :=
  a.start_date ≤ b.start_date

instance : DecidableRel startDateOrd := fun a b => by
  unfold startDateOrd; infer_instance

/-- Model of `query_courses_stats`: inner join of `course` with `teacher`
(the schema keeps `teacher.id` unique, so the join partner is looked up
with `find?`), dynamic `WHERE` clause, conditional aggregation over the
left-joined enrollments, `ORDER BY c.start_date`. -/
def query_courses_stats (db : DB) (teacher : Option Int)
    (levels : List String) (dstart dend : Option Int) :
    List CourseStatsRow :=
  let fs := buildFilters teacher levels dstart dend
  let rows := db.courses.filterMap (fun c =>
    match db.teachers.find? (fun t => t.id == c.teacher_id) with
    | none => none
    | some t =>
        if whereAll fs c then some (courseStatsRow db c t) else none)
  rows.insertionSort startDateOrd

/-- Semantic conjunction of the active course filters, as the spec states
it: teacher equality when a teacher is selected, level membership when the
level set is non-empty, and the inclusive date-range bounds on
`start_date`. -/
def matchesFilters (teacher : Option Int) (levels : List String)
    (dstart dend : Int) (c : Course) : Prop :=
  (∀ tid, teacher = some tid → c.teacher_id = tid) ∧
  (levels ≠ [] → c.level ∈ levels) ∧
  dstart ≤ c.start_date ∧ c.start_date ≤ dend

/-! ## Record writer (the add-student form handler) -/

/-- Outcome reported by the add-student submission handler. -/
inductive WriteOutcome where
  | success (new_id : Int) (enrolled : Nat)
  | validationError
  | duplicateEmailError
  | genericError
deriving DecidableEq

/-- The enrollment-insert loop of the submission handler.  Each loop
iteration calls `run_exec`, which opens and commits its own transaction
(`engine.begin()` per call), so a failure of statement `i` (`fail i =
true`, standing for any database error raised by that insert) aborts the
loop by exception while every previously committed row remains.  `today`
is `CURRENT_DATE`; the inserted rows carry status `"active"` and no final
grade. -/
def insert_enrollments (sid today : Int) (fail : Nat → Bool) :
    Nat → Int → DB → List Int → DB × WriteOutcome
  | _, _, db, [] => (db, .success sid 0)
  | i, eid, db, cid :: rest =>
      if fail i then (db, .genericError)
      else
        let db2 := { db with enrollments := db.enrollments ++
          [{ id := eid, student_id := sid, course_id := cid,
             enrollment_date := today, status := "active",
             final_grade := "" }] }
        match insert_enrollments sid today fail (i + 1) (eid + 1) db2 rest
          with
        | (db3, .success s n) => (db3, .success s (n + 1))
        | other => other

/-- Model of the add-student form submission handler of `dashboard.py`.
Empty required fields are rejected before any database call.  Statement 0
is the student `INSERT ... RETURNING id` (its own transaction via
`run_exec`); it fails with the distinct duplicate-email error when the
email already exists, or generically when `fail 0`.  Statements `1, 2, …`
are the per-course enrollment inserts.  `newId`/`newEid` stand for the ids
the database generates. -/
def add_student_submission (db : DB) (first_name last_name email : String)
    (registration_date : Int) (course_ids : List Int) (today : Int)
    (newId newEid : Int) (fail : Nat → Bool) : DB × WriteOutcome :=
  if first_name = "" || last_name = "" || email = "" then
    (db, .validationError)
  else if fail 0 then (db, .genericError)
  else if db.students.any (fun s => s.email == email) then
    (db, .duplicateEmailError)
  else
    let db1 := { db with students := db.students ++
      [{ id := newId, first_name := first_name, last_name := last_name,
         email := email, registration_date := registration_date }] }
    insert_enrollments newId today fail 1 newEid db1 course_ids

/-! ### The two `ORDER BY` relations are total preorders -/

instance : IsTotal CourseStatsRow startDateOrd :=
  ⟨fun a b => le_total a.start_date b.start_date⟩

instance : IsTrans CourseStatsRow startDateOrd :=
  ⟨fun _ _ _ hab hbc => le_trans hab hbc⟩

instance : IsTotal Student studentOrd := by
  constructor
  intro a b
  unfold studentOrd
  rcases lt_trichotomy a.last_name b.last_name with h | h | h
  · exact Or.inl (Or.inl h)
  · rcases le_total a.first_name b.first_name with hf | hf
    · exact Or.inl (Or.inr ⟨h, hf⟩)
    · exact Or.inr (Or.inr ⟨h.symm, hf⟩)
  · exact Or.inr (Or.inl h)

instance : IsTrans Student studentOrd := by
  constructor
  intro a b c hab hbc
  unfold studentOrd at hab hbc ⊢
  rcases hab with h1 | ⟨h1, h1f⟩ <;> rcases hbc with h2 | ⟨h2, h2f⟩
  · exact Or.inl (lt_trans h1 h2)
  · exact Or.inl (lt_of_lt_of_le h1 (le_of_eq h2))
  · exact Or.inl (lt_of_le_of_lt (le_of_eq h1) h2)
  · exact Or.inr ⟨h1.trans h2, le_trans h1f h2f⟩

/-! ## Concrete inputs used by the witness theorems -/

/-- Concrete one-student, one-course plan exercising C8. -/
def witnessCourse : Course :=
  { id := 7, title := "Introduction to SQL #7", description := "",
    level := "Beginner", credits := 3, start_date := 739000,
    end_date := 739060, teacher_id := 1 }

def witnessPlan : List (Student × List (Course × Int × ℚ × ℚ)) :=
  [(defaultStudent, [(witnessCourse, 5, 0, 0)])]

def emptyDB : DB :=
  { teachers := [], students := [], courses := [], enrollments := [] }

def witnessTeacher : Teacher :=
  { id := 1, first_name := "Grace", last_name := "Hopper",
    email := "grace.hopper1@example.edu", bio := "Teaches." }

/-- A database with one teacher and one matching course exercising C2/C3. -/
def witnessDB : DB :=
  { teachers := [witnessTeacher], students := [], courses := [witnessCourse],
    enrollments := [] }

def bobStone : Student :=
  { id := 42, first_name := "Bob", last_name := "Stone",
    email := "alice@example.com", registration_date := 738000 }

/-- A database whose single student matches the term "alice" only through
the email column, exercising C4/C10. -/
def searchDB : DB :=
  { teachers := [], students := [bobStone], courses := [],
    enrollments := [] }

/-- A student whose last name contains a literal backslash; the search term
"\\" is an `ILIKE` escape character, so the search misses this student. -/
def slashStudent : Student :=
  { id := 7, first_name := "Ann", last_name := "O\\Hara",
    email := "ann@example.com", registration_date := 738000 }

def slashDB : DB :=
  { teachers := [], students := [slashStudent], courses := [],
    enrollments := [] }

/-- A student whose email contains a literal backslash, exercising the C10
counterexample. -/
def bsStudent : Student :=
  { id := 9, first_name := "Eve", last_name := "Query",
    email := "x\\y@example.com", registration_date := 738000 }

def bsDB : DB :=
  { teachers := [], students := [bsStudent], courses := [],
    enrollments := [] }

/-- A concrete draw oracle exercising C9. -/
def witnessOracle : GenOracle :=
  { tFirst := fun _ => "Ada", tLast := fun _ => "Byron",
    tBio := fun _ => "Teaches.", sFirst := fun _ => "Alan",
    sLast := fun _ => "Turing", sRegK := fun _ => 0,
    cTeacherIdx := fun _ => 0, cLevelIdx := fun _ => 0,
    cTitleIdx := fun _ => 0, cDesc := fun _ => "A course.",
    cCreditsIdx := fun _ => 0, cStartK := fun _ => 0,
    cDur := fun _ => 30, eDraws := fun _ => [(0, 5, 0, 0)] }

/-! ### Evaluation of the four weight tables

Each lemma turns one concrete `random.choices` call of the generator into
the partition of the unit interval for the `random()` draw that its
weights induce. -/

theorem choices_past (r : ℚ) :
    random_choices ["completed", "active", "dropped"]
      [75/100, 5/100, 20/100] r =
      if r < 75/100 then "completed" else if r < 80/100 then "active"
      else "dropped" := by
  simp only [random_choices, accumulate, accumFrom, List.getLastD,
    List.dropLast, List.countP_cons, List.countP_nil]
  norm_num
  split_ifs <;> first | rfl | linarith

theorem choices_future (r : ℚ) :
    random_choices ["active", "completed", "dropped"] [70/100, 0, 30/100] r =
      if r < 70/100 then "active" else "dropped" := by
  simp only [random_choices, accumulate, accumFrom, List.getLastD,
    List.dropLast, List.countP_cons, List.countP_nil]
  norm_num
  split_ifs <;> first | rfl | linarith

theorem choices_ongoing (r : ℚ) :
    random_choices ["active", "completed", "dropped"]
      [60/100, 20/100, 20/100] r =
      if r < 60/100 then "active" else if r < 80/100 then "completed"
      else "dropped" := by
  simp only [random_choices, accumulate, accumFrom, List.getLastD,
    List.dropLast, List.countP_cons, List.countP_nil]
  norm_num
  split_ifs <;> first | rfl | linarith

set_option maxHeartbeats 1000000 in
theorem choices_grade (r : ℚ) :
    random_choices ["A", "B", "C", "D", "E", "F"]
      [25/100, 30/100, 25/100, 10/100, 5/100, 5/100] r =
      if r < 25/100 then "A" else if r < 55/100 then "B"
      else if r < 80/100 then "C" else if r < 90/100 then "D"
      else if r < 95/100 then "E" else "F" := by
  simp only [random_choices, accumulate, accumFrom, List.getLastD,
    List.dropLast, List.countP_cons, List.countP_nil]
  norm_num
  split_ifs <;> first | rfl | linarith

theorem csg_grade (cs ce ed : Int) (rs rg : ℚ) :
    (choose_status_and_grade cs ce ed rs rg).2 =
      if (choose_status_and_grade cs ce ed rs rg).1 = "completed" then
        some (random_choices ["A", "B", "C", "D", "E", "F"]
          [25/100, 30/100, 25/100, 10/100, 5/100, 5/100] rg)
      else none := by
  simp only [choose_status_and_grade]

theorem grade_ne_empty (rg : ℚ) :
    random_choices ["A", "B", "C", "D", "E", "F"]
      [25/100, 30/100, 25/100, 10/100, 5/100, 5/100] rg ≠ "" := by
  rw [choices_grade]
  split_ifs <;> decide

theorem mem_enroll_student (sid : Int) :
    ∀ (eid : Int) (draws : List (Course × Int × ℚ × ℚ)),
      ∀ e ∈ enroll_student sid eid draws,
        ∃ d ∈ draws, ∃ eid₂,
          e = mk_enrollment eid₂ sid d.1 d.2.1 d.2.2.1 d.2.2.2
  | _, [], e, he => absurd he (by simp [enroll_student])
  | eid, (c, k, rs, rg) :: rest, e, he => by
    rw [enroll_student, List.mem_cons] at he
    rcases he with he | he
    · exact ⟨(c, k, rs, rg), List.mem_cons_self _ _, eid, he⟩
    · obtain ⟨d, hd, eid₂, hm⟩ := mem_enroll_student sid (eid + 1) rest e he
      exact ⟨d, List.mem_cons_of_mem _ hd, eid₂, hm⟩

theorem mem_generate_enrollments :
    ∀ (eid : Int) (plan : List (Student × List (Course × Int × ℚ × ℚ))),
      ∀ e ∈ generate_enrollments eid plan,
        ∃ p ∈ plan, ∃ eid₂, e ∈ enroll_student p.1.id eid₂ p.2
  | _, [], e, he => absurd he (by simp [generate_enrollments])
  | eid, (s, draws) :: rest, e, he => by
    rw [generate_enrollments, List.mem_append] at he
    rcases he with he | he
    · exact ⟨(s, draws), List.mem_cons_self _ _, eid, he⟩
    · obtain ⟨p, hp, eid₂, hm⟩ :=
        mem_generate_enrollments (eid + draws.length) rest e he
      exact ⟨p, List.mem_cons_of_mem _ hp, eid₂, hm⟩

theorem mk_enrollment_date_bounds (eid sid : Int) (c : Course) (k : Int)
    (rs rg : ℚ) (hk0 : 0 ≤ k)
    (hk1 : k ≤ min (c.start_date + 20) c.end_date - (c.start_date - 30)) :
    c.start_date - 30 ≤ (mk_enrollment eid sid c k rs rg).enrollment_date ∧
      (mk_enrollment eid sid c k rs rg).enrollment_date ≤
        min (c.start_date + 20) c.end_date := by
  simp only [mk_enrollment, random_date_between]
  omega


/-! ## Claim theorems for the data generator -/

/-- C6: for every generated enrollment, the status is drawn by a three-way
weighted choice whose weight table is selected by comparing the fixed
reference date to the course window: a course that ended before the
reference date uses {completed 0.75, active 0.05, dropped 0.20}, a course
starting after it uses {active 0.70, completed 0.0, dropped 0.30}, and an
ongoing course uses {active 0.60, completed 0.20, dropped 0.20}.  The
weights are stated as the partition of the unit interval that the
`random()` draw `rs` is measured against (so e.g. a zero weight means the
outcome is impossible). -/
theorem c6_status_weights (cs ce ed : Int) (rs rg : ℚ)
    (hr0 : 0 ≤ rs) (hr1 : rs < 1) :
    (ce < refDate →
      (((choose_status_and_grade cs ce ed rs rg).1 = "completed" ↔
          rs < 75/100) ∧
       ((choose_status_and_grade cs ce ed rs rg).1 = "active" ↔
          75/100 ≤ rs ∧ rs < 80/100) ∧
       ((choose_status_and_grade cs ce ed rs rg).1 = "dropped" ↔
          80/100 ≤ rs))) ∧
    (¬ce < refDate → cs > refDate →
      (((choose_status_and_grade cs ce ed rs rg).1 = "active" ↔
          rs < 70/100) ∧
       ((choose_status_and_grade cs ce ed rs rg).1 ≠ "completed") ∧
       ((choose_status_and_grade cs ce ed rs rg).1 = "dropped" ↔
          70/100 ≤ rs))) ∧
    (¬ce < refDate → ¬cs > refDate →
      (((choose_status_and_grade cs ce ed rs rg).1 = "active" ↔
          rs < 60/100) ∧
       ((choose_status_and_grade cs ce ed rs rg).1 = "completed" ↔
          60/100 ≤ rs ∧ rs < 80/100) ∧
       ((choose_status_and_grade cs ce ed rs rg).1 = "dropped" ↔
          80/100 ≤ rs))) := by
  refine ⟨fun hp => ?_, fun hnp hf => ?_, fun hnp hnf => ?_⟩
  · simp only [choose_status_and_grade, if_pos hp, choices_past]
    split_ifs with h1 h2 <;>
      refine ⟨?_, ?_, ?_⟩ <;> simp <;>
        first | linarith | (intro h; linarith) | (constructor <;> linarith)
  · simp only [choose_status_and_grade, if_neg hnp, if_pos hf,
      choices_future]
    split_ifs with h1 <;>
      refine ⟨?_, ?_, ?_⟩ <;> simp <;>
        first | linarith | (intro h; linarith) | (constructor <;> linarith)
  · simp only [choose_status_and_grade, if_neg hnp, if_neg hnf,
      choices_ongoing]
    split_ifs with h1 h2 <;>
      refine ⟨?_, ?_, ?_⟩ <;> simp <;>
        first | linarith | (intro h; linarith) | (constructor <;> linarith)

theorem c6_status_weights_witness :
    (0 : ℚ) ≤ 1/2 ∧ (1/2 : ℚ) < 1 ∧
    ((choose_status_and_grade 739000 739100 738990 (1/2) 0).1 =
        "completed" ↔ (1/2 : ℚ) < 75/100) :=
  ⟨by norm_num, by norm_num,
    ((c6_status_weights 739000 739100 738990 (1/2) 0 (by norm_num)
      (by norm_num)).1 (by decide)).1⟩

/-- C7: a generated enrollment's final grade is non-empty exactly when its
status is "completed"; in that case it is the weighted choice over
{A 0.25, B 0.30, C 0.25, D 0.10, E 0.05, F 0.05}, stated as the partition
of the unit interval the grade draw `rg` is measured against. -/
theorem c7_final_grade_iff_completed (eid sid : Int) (c : Course) (k : Int)
    (rs rg : ℚ) (hg0 : 0 ≤ rg) (hg1 : rg < 1) :
    ((mk_enrollment eid sid c k rs rg).final_grade ≠ "" ↔
      (mk_enrollment eid sid c k rs rg).status = "completed") ∧
    ((mk_enrollment eid sid c k rs rg).status = "completed" →
      (((mk_enrollment eid sid c k rs rg).final_grade = "A" ↔
          rg < 25/100) ∧
       ((mk_enrollment eid sid c k rs rg).final_grade = "B" ↔
          25/100 ≤ rg ∧ rg < 55/100) ∧
       ((mk_enrollment eid sid c k rs rg).final_grade = "C" ↔
          55/100 ≤ rg ∧ rg < 80/100) ∧
       ((mk_enrollment eid sid c k rs rg).final_grade = "D" ↔
          80/100 ≤ rg ∧ rg < 90/100) ∧
       ((mk_enrollment eid sid c k rs rg).final_grade = "E" ↔
          90/100 ≤ rg ∧ rg < 95/100) ∧
       ((mk_enrollment eid sid c k rs rg).final_grade = "F" ↔
          95/100 ≤ rg))) := by
  simp only [mk_enrollment]
  rw [csg_grade]
  by_cases h : (choose_status_and_grade c.start_date c.end_date
      (random_date_between (c.start_date - 30)
        (min (c.start_date + 20) c.end_date) k) rs rg).1 = "completed"
  · rw [if_pos h]
    refine ⟨by simp [h, grade_ne_empty rg], fun _ => ?_⟩
    simp only [Option.getD_some]
    rw [choices_grade]
    split_ifs <;>
      refine ⟨?_, ?_, ?_, ?_, ?_, ?_⟩ <;> simp <;>
        first | linarith | (intro h2; linarith) | (constructor <;> linarith)
  · rw [if_neg h]
    exact ⟨by simp [h], fun hc => absurd hc h⟩

theorem c7_final_grade_iff_completed_witness :
    (0 : ℚ) ≤ 1/2 ∧ (1/2 : ℚ) < 1 ∧
    ((mk_enrollment 1 1 defaultCourse 0 0 (1/2)).final_grade ≠ "" ↔
      (mk_enrollment 1 1 defaultCourse 0 0 (1/2)).status = "completed") :=
  ⟨by norm_num, by norm_num,
    (c7_final_grade_iff_completed 1 1 defaultCourse 0 0 (1/2)
      (by norm_num) (by norm_num)).1⟩

/-- C8: every generated enrollment arises from one of the sampling plan's
draws, is exactly the `mk_enrollment` of that draw — so its `student_id`
is that student's id and its `course_id` is the id of the course the
student was enrolled in — and its enrollment date lies in the closed
interval from 30 days before that same course's start to the earlier of
20 days after the start and the course's end.  The hypothesis is the
contract of the `random.randint(0, delta)` draw of each iteration. -/
theorem c8_enrollment_date_window (eid : Int)
    (plan : List (Student × List (Course × Int × ℚ × ℚ)))
    (hk : ∀ p ∈ plan, ∀ d ∈ p.2, 0 ≤ d.2.1 ∧
      d.2.1 ≤ min (d.1.start_date + 20) d.1.end_date -
        (d.1.start_date - 30)) :
    ∀ e ∈ generate_enrollments eid plan, ∃ p ∈ plan, ∃ d ∈ p.2,
      ∃ eid2 : Int,
      e = mk_enrollment eid2 p.1.id d.1 d.2.1 d.2.2.1 d.2.2.2 ∧
      e.student_id = p.1.id ∧ e.course_id = d.1.id ∧
      d.1.start_date - 30 ≤ e.enrollment_date ∧
      e.enrollment_date ≤ min (d.1.start_date + 20) d.1.end_date := by
  intro e he
  obtain ⟨p, hp, eid₂, hm⟩ := mem_generate_enrollments eid plan e he
  obtain ⟨d, hd, eid₃, rfl⟩ := mem_enroll_student p.1.id eid₂ p.2 _ hm
  obtain ⟨hk0, hk1⟩ := hk p hp d hd
  obtain ⟨h1, h2⟩ := mk_enrollment_date_bounds eid₃ p.1.id d.1 d.2.1
    d.2.2.1 d.2.2.2 hk0 hk1
  exact ⟨p, hp, d, hd, eid₃, rfl, rfl, rfl, h1, h2⟩

theorem c8_enrollment_date_window_witness :
    (∀ p ∈ witnessPlan, ∀ d ∈ p.2, 0 ≤ d.2.1 ∧
      d.2.1 ≤ min (d.1.start_date + 20) d.1.end_date -
        (d.1.start_date - 30)) ∧
    (∀ e ∈ generate_enrollments 1 witnessPlan, ∃ p ∈ witnessPlan,
      ∃ d ∈ p.2, ∃ eid2 : Int,
      e = mk_enrollment eid2 p.1.id d.1 d.2.1 d.2.2.1 d.2.2.2 ∧
      e.student_id = p.1.id ∧ e.course_id = d.1.id ∧
      d.1.start_date - 30 ≤ e.enrollment_date ∧
      e.enrollment_date ≤ min (d.1.start_date + 20) d.1.end_date) :=
  ⟨by decide, c8_enrollment_date_window 1 witnessPlan (by decide)⟩

/-! ## Claim theorem for seed determinism (C9) -/

theorem generate_teachers_ext (o1 o2 : GenOracle)
    (h1 : ∀ j < NUM_TEACHERS, o1.tFirst j = o2.tFirst j)
    (h2 : ∀ j < NUM_TEACHERS, o1.tLast j = o2.tLast j)
    (h3 : ∀ j < NUM_TEACHERS, o1.tBio j = o2.tBio j) :
    generate_teachers o1 = generate_teachers o2 := by
  unfold generate_teachers
  apply List.map_congr_left
  intro j hj
  rw [List.mem_range] at hj
  simp only [h1 j hj, h2 j hj, h3 j hj]

theorem generate_students_ext (o1 o2 : GenOracle)
    (h1 : ∀ j < NUM_STUDENTS, o1.sFirst j = o2.sFirst j)
    (h2 : ∀ j < NUM_STUDENTS, o1.sLast j = o2.sLast j)
    (h3 : ∀ j < NUM_STUDENTS, o1.sRegK j = o2.sRegK j) :
    generate_students o1 = generate_students o2 := by
  unfold generate_students
  apply List.map_congr_left
  intro j hj
  rw [List.mem_range] at hj
  simp only [h1 j hj, h2 j hj, h3 j hj]

theorem generate_courses_ext (o1 o2 : GenOracle) (ts : List Teacher)
    (h1 : ∀ j < NUM_COURSES, o1.cTeacherIdx j = o2.cTeacherIdx j)
    (h2 : ∀ j < NUM_COURSES, o1.cLevelIdx j = o2.cLevelIdx j)
    (h3 : ∀ j < NUM_COURSES, o1.cTitleIdx j = o2.cTitleIdx j)
    (h4 : ∀ j < NUM_COURSES, o1.cDesc j = o2.cDesc j)
    (h5 : ∀ j < NUM_COURSES, o1.cCreditsIdx j = o2.cCreditsIdx j)
    (h6 : ∀ j < NUM_COURSES, o1.cStartK j = o2.cStartK j)
    (h7 : ∀ j < NUM_COURSES, o1.cDur j = o2.cDur j) :
    generate_courses o1 ts = generate_courses o2 ts := by
  unfold generate_courses
  apply List.map_congr_left
  intro j hj
  rw [List.mem_range] at hj
  simp only [h1 j hj, h2 j hj, h3 j hj, h4 j hj, h5 j hj, h6 j hj, h7 j hj]

theorem planFrom_ext (o1 o2 : GenOracle) (cs : List Course) :
    ∀ (ss : List Student) (j : Nat),
      (∀ i, j ≤ i → i < j + ss.length → o1.eDraws i = o2.eDraws i) →
      planFrom o1 cs j ss = planFrom o2 cs j ss
  | [], _, _ => rfl
  | s :: rest, j, h => by
    rw [planFrom, planFrom, h j le_rfl (by simp), planFrom_ext o1 o2 cs rest
      (j + 1) (fun i hi1 hi2 => h i (by omega) (by simp at hi2 ⊢; omega))]

/-- C9: the generator is deterministic in its seed.  All randomness of one
batch run is the family of draw streams produced by the two RNGs seeded
with the fixed seed 42 (`GenOracle`); the reference date is a constant.
Two runs whose streams agree on the draws the batch consumes (as two runs
from the same seed do) produce byte-identical content for all four CSV
datasets. -/
theorem c9_seed_determinism (o1 o2 : GenOracle)
    (ht1 : ∀ j < NUM_TEACHERS, o1.tFirst j = o2.tFirst j)
    (ht2 : ∀ j < NUM_TEACHERS, o1.tLast j = o2.tLast j)
    (ht3 : ∀ j < NUM_TEACHERS, o1.tBio j = o2.tBio j)
    (hs1 : ∀ j < NUM_STUDENTS, o1.sFirst j = o2.sFirst j)
    (hs2 : ∀ j < NUM_STUDENTS, o1.sLast j = o2.sLast j)
    (hs3 : ∀ j < NUM_STUDENTS, o1.sRegK j = o2.sRegK j)
    (hc1 : ∀ j < NUM_COURSES, o1.cTeacherIdx j = o2.cTeacherIdx j)
    (hc2 : ∀ j < NUM_COURSES, o1.cLevelIdx j = o2.cLevelIdx j)
    (hc3 : ∀ j < NUM_COURSES, o1.cTitleIdx j = o2.cTitleIdx j)
    (hc4 : ∀ j < NUM_COURSES, o1.cDesc j = o2.cDesc j)
    (hc5 : ∀ j < NUM_COURSES, o1.cCreditsIdx j = o2.cCreditsIdx j)
    (hc6 : ∀ j < NUM_COURSES, o1.cStartK j = o2.cStartK j)
    (hc7 : ∀ j < NUM_COURSES, o1.cDur j = o2.cDur j)
    (he : ∀ j < NUM_STUDENTS, o1.eDraws j = o2.eDraws j) :
    generator_output o1 = generator_output o2 := by
  have hts : generate_teachers o1 = generate_teachers o2 :=
    generate_teachers_ext o1 o2 ht1 ht2 ht3
  have hss : generate_students o1 = generate_students o2 :=
    generate_students_ext o1 o2 hs1 hs2 hs3
  have hcs : generate_courses o1 (generate_teachers o2) =
      generate_courses o2 (generate_teachers o2) :=
    generate_courses_ext o1 o2 _ hc1 hc2 hc3 hc4 hc5 hc6 hc7
  have hlen : (generate_students o2).length = NUM_STUDENTS := by
    simp [generate_students]
  have hplan : planFrom o1 (generate_courses o2 (generate_teachers o2)) 0
      (generate_students o2) =
      planFrom o2 (generate_courses o2 (generate_teachers o2)) 0
      (generate_students o2) :=
    planFrom_ext o1 o2 _ _ 0 (fun i _ hi2 => he i (by omega))
  simp only [generator_output, generate_enrollments_run]
  rw [hts, hss, hcs, hplan]

theorem c9_seed_determinism_witness :
    (∀ j < NUM_TEACHERS, witnessOracle.tFirst j = witnessOracle.tFirst j) ∧
    generator_output witnessOracle = generator_output witnessOracle :=
  ⟨fun _ _ => rfl,
    c9_seed_determinism witnessOracle witnessOracle
      (fun _ _ => rfl) (fun _ _ => rfl) (fun _ _ => rfl) (fun _ _ => rfl)
      (fun _ _ => rfl) (fun _ _ => rfl) (fun _ _ => rfl) (fun _ _ => rfl)
      (fun _ _ => rfl) (fun _ _ => rfl) (fun _ _ => rfl) (fun _ _ => rfl)
      (fun _ _ => rfl) (fun _ _ => rfl)⟩

/-! ## Claim theorems for the dashboard queries -/

theorem likeMatch_cons (p : Char) (ps s : List Char) :
    likeMatch (p :: ps) s =
      (if p = '%' then s.tails.any (fun s2 => likeMatch ps s2)
      else if p = '_' then !s.isEmpty && likeMatch ps s.tail
      else if p = '\\' then
        (match ps with
          | [] => false
          | p2 :: ps2 =>
              s.head?.any (fun c => p2 == c) && likeMatch ps2 s.tail)
      else s.head?.any (fun c => p == c) && likeMatch ps s.tail) := by
  rw [likeMatch.eq_def]

theorem likeMatch_pct (ps : List Char) (s : List Char) :
    likeMatch ('%' :: ps) s = true ↔
      ∃ s2, s2 <:+ s ∧ likeMatch ps s2 = true := by
  rw [likeMatch_cons, if_pos rfl, List.any_eq_true]
  constructor
  · rintro ⟨s2, hs, h⟩
    exact ⟨s2, (List.mem_tails _ _).mp hs, h⟩
  · rintro ⟨s2, hs, h⟩
    exact ⟨s2, (List.mem_tails _ _).mpr hs, h⟩

theorem likeMatch_plain_pct (t : List Char) (hw : noWild t) :
    ∀ s : List Char, likeMatch (t ++ ['%']) s = true ↔ t <+: s := by
  induction t with
  | nil =>
    intro s
    simp only [List.nil_append, List.nil_prefix, iff_true]
    rw [likeMatch_pct]
    exact ⟨[], List.nil_suffix, rfl⟩
  | cons c t2 ih =>
    intro s
    obtain ⟨hc1, hc2, hc3⟩ := hw c (List.mem_cons_self c t2)
    have hw2 : noWild t2 := fun d hd => hw d (List.mem_cons_of_mem c hd)
    rw [List.cons_append, likeMatch_cons, if_neg hc1, if_neg hc2, if_neg hc3]
    cases s with
    | nil => simp
    | cons d s2 =>
      simp only [List.head?_cons, Option.any_some, List.tail_cons,
        List.isEmpty_cons, Bool.and_eq_true, beq_iff_eq,
        List.cons_prefix_cons]
      rw [ih hw2 s2]

theorem likeMatch_pct_plain_pct (t : List Char) (hw : noWild t)
    (s : List Char) :
    likeMatch ('%' :: (t ++ ['%'])) s = true ↔ t <:+: s := by
  rw [likeMatch_pct]
  constructor
  · rintro ⟨s2, hsuf, h⟩
    exact List.infix_iff_prefix_suffix.mpr
      ⟨s2, (likeMatch_plain_pct t hw s2).mp h, hsuf⟩
  · intro h
    obtain ⟨s2, hpre, hsuf⟩ := List.infix_iff_prefix_suffix.mp h
    exact ⟨s2, hsuf, (likeMatch_plain_pct t hw s2).mpr hpre⟩

theorem toList_pct_pat (term : String) :
    ("%" ++ term ++ "%").toList = '%' :: (term.toList ++ ['%']) := by
  have h1 : ("%" ++ term ++ "%").toList =
      "%".toList ++ term.toList ++ "%".toList := by
    simp [String.toList, String.data_append]
  rw [h1]
  rfl

theorem ilike_pct_iff (s term : String) (hw : noWild (lowerL term.toList)) :
    ilike s ("%" ++ term ++ "%") = true ↔ substrCI s term := by
  unfold ilike substrCI
  rw [toList_pct_pat]
  have h2 : lowerL ('%' :: (term.toList ++ ['%'])) =
      '%' :: (lowerL term.toList ++ ['%']) := by
    simp [lowerL]
  rw [h2]
  exact likeMatch_pct_plain_pct (lowerL term.toList) hw (lowerL s.toList)

theorem studentMatch_iff (term : String) (s : Student)
    (hw : noWild (lowerL term.toList)) :
    studentMatch term s = true ↔
      (substrCI s.first_name term ∨ substrCI s.last_name term ∨
       substrCI s.email term ∨
       substrCI (s.first_name ++ " " ++ s.last_name) term) := by
  unfold studentMatch
  simp only [Bool.or_eq_true]
  rw [ilike_pct_iff _ _ hw, ilike_pct_iff _ _ hw, ilike_pct_iff _ _ hw,
    ilike_pct_iff _ _ hw]
  tauto


/-- C10 fails as stated for terms containing `LIKE` metacharacters: for
the non-empty term consisting of one backslash, the student whose email
"x\\y@example.com" contains that term as a substring is not returned —
the backslash is consumed as the `ILIKE` escape character, so the pattern
matches only strings ending in a literal percent sign. -/
theorem c10_counterexample_backslash_escape :
    substrCI bsStudent.email "\\" ∧ bsStudent ∈ bsDB.students ∧
    (query_students bsDB "\\").length ≤ 50 ∧
    bsStudent ∉ query_students bsDB "\\" := by
  decide

/-- C10 (amended): for every non-empty search term without `LIKE`
metacharacters, the student search also matches on the email column: any
student of the table whose email contains the term as a case-insensitive
substring is returned (when the result is not cut off by `LIMIT 50`),
whatever the name columns hold.  The wildcard hypothesis is what makes
`ILIKE` with the pattern `'%' || term || '%'` coincide with substring
containment; without it the claim fails (see the counterexample). -/
theorem c10_email_match_returned (db : DB) (term : String) (s : Student)
    (hw : noWild (lowerL term.toList))
    (hs : s ∈ db.students) (hemail : substrCI s.email term)
    (hsmall : (db.students.filter (studentMatch term)).length ≤ 50) :
    s ∈ query_students db term := by
  unfold query_students
  have hmem : s ∈ db.students.filter (studentMatch term) :=
    List.mem_filter.mpr ⟨hs, (studentMatch_iff term s hw).mpr
      (Or.inr (Or.inr (Or.inl hemail)))⟩
  rw [List.take_of_length_le]
  · exact (List.mem_insertionSort studentOrd).mpr hmem
  · rw [(List.perm_insertionSort studentOrd _).length_eq]
    exact hsmall

theorem c10_email_match_returned_witness :
    noWild (lowerL "alice".toList) ∧ bobStone ∈ searchDB.students ∧
    substrCI bobStone.email "alice" ∧
    (searchDB.students.filter (studentMatch "alice")).length ≤ 50 ∧
    bobStone ∈ query_students searchDB "alice" :=
  ⟨by decide, by decide, by decide, by decide,
    c10_email_match_returned searchDB "alice" bobStone (by decide)
      (by decide) (by decide) (by decide)⟩

/-- C4 fails as stated, in both directions.  Over-return: the search of
`searchDB` for "alice" returns Bob Stone, whose first name, last name and
full name do not contain "alice" — only the email does — so the result is
not "exactly the students whose first name, last name, or concatenation
contains the term"; this forces adding the email column.  Under-return:
for the non-empty term consisting of one backslash, the student Ann
O\\Hara, whose last name does contain that term as a substring, is not
returned at all (the backslash is the `ILIKE` escape character, so the
assembled pattern no longer performs a substring test): this forces
restricting the amended claim to terms without `LIKE` metacharacters. -/
theorem c4_counterexample_search_mismatch :
    (∃ s ∈ query_students searchDB "alice",
      ¬(substrCI s.first_name "alice" ∨ substrCI s.last_name "alice" ∨
        substrCI (s.first_name ++ " " ++ s.last_name) "alice")) ∧
    (substrCI slashStudent.last_name "\\" ∧
      slashStudent ∈ slashDB.students ∧
      (query_students slashDB "\\").length ≤ 50 ∧
      slashStudent ∉ query_students slashDB "\\") := by
  decide

/-- C4 (amended): for every non-empty wildcard-free search term, the
student search returns exactly the students whose first name, last name,
email, or concatenation "first last" contains the term as a
case-insensitive substring (completeness holding when at most 50 rows
match), with at most 50 rows, ordered by last name then first name. -/
theorem c4_student_search_amended (db : DB) (term : String)
    (hterm : term ≠ "") (hw : noWild (lowerL term.toList)) :
    (∀ s ∈ query_students db term, s ∈ db.students ∧
      (substrCI s.first_name term ∨ substrCI s.last_name term ∨
       substrCI s.email term ∨
       substrCI (s.first_name ++ " " ++ s.last_name) term)) ∧
    ((db.students.filter (studentMatch term)).length ≤ 50 →
      ∀ s ∈ db.students,
        (substrCI s.first_name term ∨ substrCI s.last_name term ∨
         substrCI s.email term ∨
         substrCI (s.first_name ++ " " ++ s.last_name) term) →
        s ∈ query_students db term) ∧
    (query_students db term).Pairwise studentOrd ∧
    (query_students db term).length ≤ 50 := by
  refine ⟨?_, ?_, ?_, ?_⟩
  · intro s hs
    unfold query_students at hs
    have hs2 := (List.mem_insertionSort studentOrd).mp
      (List.mem_of_mem_take hs)
    have hs3 := List.mem_filter.mp hs2
    exact ⟨hs3.1, (studentMatch_iff term s hw).mp hs3.2⟩
  · intro hsmall s hs hmatch
    unfold query_students
    have hmem : s ∈ db.students.filter (studentMatch term) :=
      List.mem_filter.mpr ⟨hs, (studentMatch_iff term s hw).mpr hmatch⟩
    rw [List.take_of_length_le]
    · exact (List.mem_insertionSort studentOrd).mpr hmem
    · rw [(List.perm_insertionSort studentOrd _).length_eq]
      exact hsmall
  · exact List.Pairwise.sublist (List.take_sublist _ _)
      (List.sorted_insertionSort studentOrd _)
  · exact List.length_take_le _ _

theorem c4_student_search_amended_witness :
    "bob" ≠ "" ∧ noWild (lowerL "bob".toList) ∧
    (query_students searchDB "bob").Pairwise studentOrd ∧
    (query_students searchDB "bob").length ≤ 50 :=
  ⟨by decide, by decide,
    (c4_student_search_amended searchDB "bob" (by decide) (by decide)).2.2.1,
    (c4_student_search_amended searchDB "bob" (by decide) (by decide)).2.2.2⟩

theorem whereAll_buildFilters (t? : Option Int) (levels : List String)
    (ds de : Int) (c : Course) :
    whereAll (buildFilters t? levels (some ds) (some de)) c = true ↔
      matchesFilters t? levels ds de c := by
  unfold whereAll buildFilters matchesFilters
  cases t? <;> rcases levels with _ | ⟨l, ls⟩ <;>
    simp [List.contains_iff_exists_mem_beq, and_assoc]

theorem mem_query_courses_stats (db : DB) (t? : Option Int)
    (levels : List String) (ds de : Option Int) (r : CourseStatsRow) :
    r ∈ query_courses_stats db t? levels ds de ↔
      ∃ c ∈ db.courses, ∃ t, db.teachers.find? (fun t => t.id == c.teacher_id)
        = some t ∧ whereAll (buildFilters t? levels ds de) c = true ∧
        r = courseStatsRow db c t := by
  unfold query_courses_stats
  rw [List.mem_insertionSort, List.mem_filterMap]
  constructor
  · rintro ⟨c, hc, hfc⟩
    rcases hfind : db.teachers.find? (fun t => t.id == c.teacher_id) with
      _ | t
    · rw [hfind] at hfc
      exact absurd hfc (by simp)
    · rw [hfind] at hfc
      have hfc2 : (if whereAll (buildFilters t? levels ds de) c = true then
          some (courseStatsRow db c t) else none) = some r := hfc
      by_cases hw : whereAll (buildFilters t? levels ds de) c = true
      · rw [if_pos hw] at hfc2
        exact ⟨c, hc, t, hfind, hw, (Option.some.injEq _ _ ▸ hfc2).symm⟩
      · rw [if_neg hw] at hfc2
        exact absurd hfc2 (by simp)
  · rintro ⟨c, hc, t, hfind, hw, rfl⟩
    refine ⟨c, hc, ?_⟩
    rw [hfind]
    show (if whereAll (buildFilters t? levels ds de) c = true then
      some (courseStatsRow db c t) else none) = some (courseStatsRow db c t)
    rw [if_pos hw]

/-- C2: with both date bounds set (as the UI always does), the
course-overview result contains exactly the courses satisfying the
conjunction of the active filters — teacher equality when a teacher is
selected, level membership when the level set is non-empty, and the
inclusive bounds on `start_date` — ordered by `start_date` ascending.
Referential integrity of `course.teacher_id` (the schema's foreign key) is
assumed so the inner teacher join drops no course row. -/
theorem c2_course_overview_filters (db : DB) (t? : Option Int)
    (levels : List String) (ds de : Int)
    (hri : ∀ c ∈ db.courses, ∃ t ∈ db.teachers, t.id = c.teacher_id) :
    (∀ r ∈ query_courses_stats db t? levels (some ds) (some de),
      ∃ c ∈ db.courses, r.id = c.id ∧ r.level = c.level ∧
        r.start_date = c.start_date ∧ matchesFilters t? levels ds de c) ∧
    (∀ c ∈ db.courses, matchesFilters t? levels ds de c →
      ∃ r ∈ query_courses_stats db t? levels (some ds) (some de),
        r.id = c.id) ∧
    (query_courses_stats db t? levels (some ds) (some de)).Pairwise
      (fun a b => a.start_date ≤ b.start_date) := by
  refine ⟨?_, ?_, ?_⟩
  · intro r hr
    rw [mem_query_courses_stats] at hr
    obtain ⟨c, hc, t, hfind, hw, rfl⟩ := hr
    exact ⟨c, hc, rfl, rfl, rfl,
      (whereAll_buildFilters t? levels ds de c).mp hw⟩
  · intro c hc hm
    obtain ⟨t, ht, hid⟩ := hri c hc
    have hsome : (db.teachers.find? (fun t => t.id == c.teacher_id)).isSome :=
      List.find?_isSome.mpr ⟨t, ht, by simp [hid]⟩
    obtain ⟨t2, hfind⟩ := Option.isSome_iff_exists.mp hsome
    exact ⟨courseStatsRow db c t2,
      (mem_query_courses_stats db t? levels (some ds) (some de) _).mpr
        ⟨c, hc, t2, hfind, (whereAll_buildFilters t? levels ds de c).mpr hm,
          rfl⟩, rfl⟩
  · unfold query_courses_stats
    exact (List.sorted_insertionSort startDateOrd _).imp (fun h => h)

theorem c2_course_overview_filters_witness :
    (∀ c ∈ witnessDB.courses, ∃ t ∈ witnessDB.teachers,
      t.id = c.teacher_id) ∧
    (query_courses_stats witnessDB none ["Beginner"] (some 738900)
      (some 739100)).Pairwise (fun a b => a.start_date ≤ b.start_date) :=
  ⟨by decide,
    (c2_course_overview_filters witnessDB none ["Beginner"] 738900 739100
      (by decide)).2.2⟩

/-- C3: a course that matches the filters but has no enrollment still
appears as a result row, and all four of its aggregate counts are zero
(the conditional aggregation over the left join counts nothing for it). -/
theorem c3_zero_enrollments_zero_counts (db : DB) (t? : Option Int)
    (levels : List String) (ds de : Int) (c : Course)
    (hri : ∀ c2 ∈ db.courses, ∃ t ∈ db.teachers, t.id = c2.teacher_id)
    (hc : c ∈ db.courses) (hm : matchesFilters t? levels ds de c)
    (h0 : ∀ e ∈ db.enrollments, e.course_id ≠ c.id) :
    ∃ r ∈ query_courses_stats db t? levels (some ds) (some de),
      r.id = c.id ∧ r.total_enrollments = 0 ∧ r.active_count = 0 ∧
      r.completed_count = 0 ∧ r.dropped_count = 0 := by
  obtain ⟨t, ht, hid⟩ := hri c hc
  have hsome : (db.teachers.find? (fun t => t.id == c.teacher_id)).isSome :=
    List.find?_isSome.mpr ⟨t, ht, by simp [hid]⟩
  obtain ⟨t2, hfind⟩ := Option.isSome_iff_exists.mp hsome
  have hnil : db.enrollments.filter (fun e => e.course_id == c.id) = [] := by
    rw [List.filter_eq_nil_iff]
    intro e he
    simp [h0 e he]
  refine ⟨courseStatsRow db c t2,
    (mem_query_courses_stats db t? levels (some ds) (some de) _).mpr
      ⟨c, hc, t2, hfind, (whereAll_buildFilters t? levels ds de c).mpr hm,
        rfl⟩, rfl, ?_, ?_, ?_, ?_⟩ <;>
    simp [courseStatsRow, hnil]

theorem c3_zero_enrollments_zero_counts_witness :
    (∀ c2 ∈ witnessDB.courses, ∃ t ∈ witnessDB.teachers,
      t.id = c2.teacher_id) ∧
    witnessCourse ∈ witnessDB.courses ∧
    matchesFilters none ["Beginner"] 738900 739100 witnessCourse ∧
    (∀ e ∈ witnessDB.enrollments, e.course_id ≠ witnessCourse.id) ∧
    (∃ r ∈ query_courses_stats witnessDB none ["Beginner"] (some 738900)
        (some 739100),
      r.id = witnessCourse.id ∧ r.total_enrollments = 0 ∧
      r.active_count = 0 ∧ r.completed_count = 0 ∧ r.dropped_count = 0) :=
  ⟨by decide, by decide,
    ⟨fun tid h => Option.noConfusion h, fun _ => by decide, by decide,
      by decide⟩,
    by decide,
    c3_zero_enrollments_zero_counts witnessDB none ["Beginner"] 738900
      739100 witnessCourse (by decide) (by decide)
      ⟨fun tid h => Option.noConfusion h, fun _ => by decide, by decide,
        by decide⟩
      (by decide)⟩

/-! ## Claim theorems for the record writer -/

/-- C5: a submission with an empty first name, last name, or email is
rejected with the validation error, and the database is unchanged — no
student row and no enrollment row is written. -/
theorem c5_empty_field_rejected (db : DB) (fn ln em : String) (reg : Int)
    (cids : List Int) (today newId newEid : Int) (fail : Nat → Bool)
    (h : fn = "" ∨ ln = "" ∨ em = "") :
    add_student_submission db fn ln em reg cids today newId newEid fail =
      (db, .validationError) := by
  unfold add_student_submission
  rcases h with h | h | h <;> simp [h]

theorem c5_empty_field_rejected_witness :
    ("" = "" ∨ "Stone" = "" ∨ "a@b.example" = "") ∧
    add_student_submission emptyDB "" "Stone" "a@b.example" 738000 [101]
      739050 1 1 (fun _ => false) = (emptyDB, .validationError) :=
  ⟨Or.inl rfl,
    c5_empty_field_rejected emptyDB "" "Stone" "a@b.example" 738000 [101]
      739050 1 1 (fun _ => false) (Or.inl rfl)⟩

/-- C1 is violated by the code: each statement of the submission runs in
its own committed transaction (`run_exec` opens `engine.begin()` per
call), so when the second enrollment insert fails the handler reports the
generic error, yet the student row and the first enrollment row remain in
the database — an orphaned student with partial enrollments, which the
all-or-nothing contract forbids. -/
theorem c1_partial_commit_on_enrollment_failure :
    (add_student_submission emptyDB "Ada" "Lovelace" "ada@example.com"
        739000 [101, 102] 739050 1 1 (fun i => i == 2)).2 =
      .genericError ∧
    ((add_student_submission emptyDB "Ada" "Lovelace" "ada@example.com"
        739000 [101, 102] 739050 1 1 (fun i => i == 2)).1.students.map
      (fun s => s.email)) = ["ada@example.com"] ∧
    ((add_student_submission emptyDB "Ada" "Lovelace" "ada@example.com"
        739000 [101, 102] 739050 1 1 (fun i => i == 2)).1.enrollments.map
      (fun e => e.course_id)) = [101] := by
  decide
